import Mathlib

/-!
Verification of the LinkedIn job-insights application (src/app.py).

The development shallowly embeds the pure content of the program:
the URL builder with its percent-encoding, the scraping step as a
function of an abstract page state, and the presenter as a function
producing a list of render actions.
-/

namespace JobInsights

/-- Python substring test: the pattern occurs contiguously in the text. -/
def containsSub (text pat : String) : Bool :=
  decide (pat.data <:+: text.data)

/-- The placeholder sentinel used for unavailable fields. -/
def DATA_NOT_AVAILABLE : String := "Data not available"

/-! ## URL builder (generate_linkedin_url, src/app.py lines 19-27)

urllib.parse.urlencode percent-encodes each value with quote_plus:
ASCII alphanumerics and the characters underscore, dot, dash, tilde
stay as they are, a space becomes a plus sign, and every other
character is encoded byte-by-byte over its UTF-8 bytes as %XX with
uppercase hexadecimal digits. -/

/-- Uppercase hexadecimal digit for a value below 16. -/
def hexDigit (n : Nat) : Char :=
  if n < 10 then Char.ofNat (48 + n) else Char.ofNat (55 + n)

/-- The UTF-8 bytes of one character (code points are below 0x110000). -/
def utf8Bytes (c : Char) : List Nat :=
  if c.toNat < 128 then [c.toNat]
  else if c.toNat < 2048 then [192 + c.toNat / 64, 128 + c.toNat % 64]
  else if c.toNat < 65536 then
    [224 + c.toNat / 4096, 128 + c.toNat / 64 % 64, 128 + c.toNat % 64]
  else
    [240 + c.toNat / 262144, 128 + c.toNat / 4096 % 64,
     128 + c.toNat / 64 % 64, 128 + c.toNat % 64]

/-- The characters quote_plus leaves unencoded: ASCII alphanumerics
and underscore, dot, dash, tilde. -/
def isSafeChar (c : Char) : Bool :=
  (65 ≤ c.toNat && c.toNat ≤ 90) || (97 ≤ c.toNat && c.toNat ≤ 122) ||
    (48 ≤ c.toNat && c.toNat ≤ 57) ||
    c = '_' || c = '.' || c = '-' || c = '~'

/-- quote_plus on one character. -/
def quotePlusChar (c : Char) : List Char :=
  if isSafeChar c then [c]
  else if c = ' ' then ['+']
  else (utf8Bytes c).flatMap (fun b => ['%', hexDigit (b / 16), hexDigit (b % 16)])

/-- urllib.parse.quote_plus on a whole string. -/
def quote_plus (s : String) : String := ⟨s.data.flatMap quotePlusChar⟩

/-- Numeric value of a hexadecimal digit character. -/
def hexVal (c : Char) : Nat :=
  if 48 ≤ c.toNat && c.toNat ≤ 57 then c.toNat - 48
  else if 65 ≤ c.toNat && c.toNat ≤ 70 then c.toNat - 55
  else if 97 ≤ c.toNat && c.toNat ≤ 102 then c.toNat - 87
  else 0

/-- First layer of percent-decoding: a plus sign stands for the space
byte, %XX stands for the byte XX, any other character stands for its
own code point as a byte. -/
def decodePlusBytes : List Char → List Nat
  | [] => []
  | c :: rest =>
    if c = '+' then 32 :: decodePlusBytes rest
    else if c = '%' then
      match rest with
      | h :: l :: rest2 => (16 * hexVal h + hexVal l) :: decodePlusBytes rest2
      | _ => [c.toNat]
    else c.toNat :: decodePlusBytes rest

/-- Second layer of percent-decoding: UTF-8 decoding of the byte list.
A leading byte takes one, two, three or four bytes according to its
range; a truncated trailing sequence yields nothing. -/
def utf8Decode : List Nat → List Char
  | [] => []
  | b :: bs =>
    if b < 128 then Char.ofNat b :: utf8Decode bs
    else
      match bs with
      | [] => []
      | b1 :: bs1 =>
        if b < 224 then Char.ofNat ((b - 192) * 64 + (b1 - 128)) :: utf8Decode bs1
        else
          match bs1 with
          | [] => []
          | b2 :: bs2 =>
            if b < 240 then
              Char.ofNat (((b - 224) * 64 + (b1 - 128)) * 64 + (b2 - 128)) :: utf8Decode bs2
            else
              match bs2 with
              | [] => []
              | b3 :: bs3 =>
                Char.ofNat
                    ((((b - 240) * 64 + (b1 - 128)) * 64 + (b2 - 128)) * 64 + (b3 - 128))
                  :: utf8Decode bs3

/-- Percent-decoding of a quote_plus encoded string. -/
def decodePlus (s : String) : String := ⟨utf8Decode (decodePlusBytes s.data)⟩

/-- urllib.parse.urlencode over a list of key-value pairs, in order,
joined with ampersands; every key and value goes through quote_plus. -/
def urlencode : List (String × String) → String
  | [] => ""
  | [p] => quote_plus p.1 ++ "=" ++ quote_plus p.2
  | p :: rest => quote_plus p.1 ++ "=" ++ quote_plus p.2 ++ "&" ++ urlencode rest

/-- src/app.py lines 19-27: the search URL for a keyword and location.
The dict literal iterates in insertion order; the integer values 1 and
0 are stringified by urlencode. -/
def generate_linkedin_url (keyword location : String) : String :=
  "https://www.linkedin.com/jobs/search/" ++ "?" ++
    urlencode [("keywords", keyword), ("location", location),
               ("position", "1"), ("pageNum", "0")]

/-! ## Scraper (scrape_linkedin_jobs, src/app.py lines 47-107)

The browser interaction is abstracted as a page state: whether setup
succeeded, whether the page loads and reaches ready state within the
ceiling, and what each of the three element lookups yields.  A none
value records that a lookup raised an exception. -/

structure WorkTypes where
  Onsite : Nat
  Remote : Nat
  Hybrid : Nat
deriving DecidableEq

/-- Outcome of loading the target page in the browser. -/
structure PageState where
  /-- browser.get(url) succeeds (no page-load failure). -/
  loads : Bool
  /-- document.readyState reaches complete within the 30-unit ceiling. -/
  ready : Bool
  /-- The job-count element lookup: the element text when found, none
  when the lookup raises. -/
  totalJobsElem : Option String
  /-- find_elements on the metadata wrapper class: the element texts,
  none when the block raises before the loop runs. -/
  metadataTexts : Option (List String)
  /-- find_elements on the subtitle selector: the element texts, none
  when the block raises. -/
  subtitleTexts : Option (List String)
deriving DecidableEq

/-- The browser session: whether setup succeeded, and the page state. -/
structure Browser where
  setupOk : Bool
  page : PageState
deriving DecidableEq

/-- Python str.strip: drop whitespace from both ends. -/
def pyStrip (s : String) : String :=
  ⟨((s.data.dropWhile Char.isWhitespace).reverse.dropWhile Char.isWhitespace).reverse⟩

/-- src/app.py lines 68-72: job-count extraction, defaulting to the
sentinel when the lookup raises. -/
def extract_total_jobs : Option String → String
  | some t => pyStrip t
  | none => DATA_NOT_AVAILABLE

/-- src/app.py lines 79-84: the if/elif chain classifying one lowered
text, first match wins: remote, then on-site/onsite, then hybrid. -/
def classifyChain (text : String) (wt : WorkTypes) : WorkTypes :=
  if containsSub text "remote" then { wt with Remote := wt.Remote + 1 }
  else if containsSub text "on-site" || containsSub text "onsite" then
    { wt with Onsite := wt.Onsite + 1 }
  else if containsSub text "hybrid" then { wt with Hybrid := wt.Hybrid + 1 }
  else wt

/-- Python str.lower, character by character (the classification
keywords are all ASCII, so ASCII lowering is the relevant part). -/
def pyLower (s : String) : String := ⟨s.data.map Char.toLower⟩

/-- src/app.py lines 77-78: the loop body only rebinds the variable
text to the lowered text of the current element; the value left after
the loop is modelled as a fold, none meaning the variable was never
assigned. -/
def lastLoweredText (texts : List String) : Option String :=
  texts.foldl (fun _ m => some (pyLower m)) none

/-- src/app.py lines 75-86: the work-type tally.  When find_elements
raises, or when the loop never ran and the membership test on the
unassigned variable raises a NameError, the handler swallows the
exception and the counts stay at their initial zeros; otherwise the
if/elif chain runs once on the text left by the loop. -/
def extract_work_types : Option (List String) → WorkTypes
  | none => ⟨0, 0, 0⟩
  | some texts =>
    match lastLoweredText texts with
    | none => ⟨0, 0, 0⟩
    | some text => classifyChain text ⟨0, 0, 0⟩

/-- src/app.py lines 89-96: company extraction — the non-empty element
texts are collected into a set, listed, and truncated to the first 10;
an exception anywhere leaves the initial empty list. -/
def extract_companies : Option (List String) → List String
  | none => []
  | some texts => ((texts.filter (fun t => t ≠ "")).dedup).take 10

/-- The data record built by the scraper (src/app.py lines 60-66). -/
structure JobData where
  total_jobs : String
  salary_range : String
  work_types : WorkTypes
  companies : List String
  search_url : String
deriving DecidableEq

/-- src/app.py lines 47-107: the scrape.  Setup failure returns None;
a page-load failure or a ready-state timeout raises into the outer
handler which returns None; otherwise the record is built with each
field extracted best-effort. -/
def scrape_linkedin_jobs (keyword location : String) (b : Browser) : Option JobData :=
  if !b.setupOk then none
  else if !(b.page.loads && b.page.ready) then none
  else some
    { total_jobs := extract_total_jobs b.page.totalJobsElem
      salary_range := DATA_NOT_AVAILABLE
      work_types := extract_work_types b.page.metadataTexts
      companies := extract_companies b.page.subtitleTexts
      search_url := generate_linkedin_url keyword location }

/-- Sum of the three work-type counts. -/
def sumCounts (wt : WorkTypes) : Nat := wt.Onsite + wt.Remote + wt.Hybrid

/-- Number of metadata elements examined by the work-type loop. -/
def metadataCount : Option (List String) → Nat
  | none => 0
  | some texts => texts.length

/-! ## Presenter (display_results and main, src/app.py lines 109-177) -/

/-- One render action issued by the presenter. -/
inductive RenderItem where
  | errorMsg (msg : String)
  | subheader (title : String)
  | metric (label value : String)
  | writeText (msg : String)
  | pieChart (onsite remote hybrid : Nat)
  | barChart (companies : List String)
  | linkMarkdown (url : String)
  | narrative (keyword : String)
  | successMsg (msg : String)
deriving DecidableEq

/-- src/app.py lines 109-157: the presenter.  Without a record it
shows one error message and returns; with a record it renders the
metrics, the work-type chart, the company chart or the no-company
message, the link and the narrative. -/
def display_results (job_data : Option JobData) (keyword : String) : List RenderItem :=
  match job_data with
  | none => [.errorMsg "No data found."]
  | some d =>
    [.subheader "📊 Job Market Overview",
     .metric "Total Jobs" d.total_jobs,
     .metric "Salary Range" d.salary_range,
     .writeText "**Work Types**",
     .writeText ("🏢 Onsite: " ++ toString d.work_types.Onsite),
     .writeText ("🏠 Remote: " ++ toString d.work_types.Remote),
     .writeText ("🔀 Hybrid: " ++ toString d.work_types.Hybrid),
     .subheader "📌 Work Type Distribution",
     .pieChart d.work_types.Onsite d.work_types.Remote d.work_types.Hybrid,
     .subheader "🏢 Top Hiring Companies"] ++
    (if d.companies.isEmpty then [.writeText "No company data found."]
     else [.barChart d.companies]) ++
    [.linkMarkdown d.search_url,
     .subheader "✅ Conclusion",
     .narrative keyword]

/-- src/app.py lines 170-177: what the submitted search renders — the
results plus the success banner, or the retrieval error message. -/
def main_results (keyword location : String) (b : Browser) : List RenderItem :=
  match scrape_linkedin_jobs keyword location b with
  | some job_data => display_results (some job_data) keyword ++ [.successMsg "Done!"]
  | none => [.errorMsg "Could not retrieve data."]

/-- A sample page state on which every extraction succeeds. -/
def sampleBrowser : Browser :=
  ⟨true, ⟨true, true, some " 1,234 ", some ["Remote role"], some ["Acme", "Acme", ""]⟩⟩

/-- The record the scraper builds from sampleBrowser for the search
keyword a and location b. -/
def sampleRecord : JobData :=
  ⟨"1,234", "Data not available", ⟨0, 1, 0⟩, ["Acme"],
   "https://www.linkedin.com/jobs/search/?keywords=a&location=b&position=1&pageNum=0"⟩

/-- A page state on which every element lookup raises. -/
def failBrowser : Browser := ⟨true, ⟨true, true, none, none, none⟩⟩

/-- A page state that loads but yields zero metadata and zero subtitle
elements. -/
def emptyPageBrowser : Browser := ⟨true, ⟨true, true, none, some [], some []⟩⟩

/-- A browser whose setup fails. -/
def downBrowser : Browser := ⟨false, ⟨true, true, none, none, none⟩⟩

/-! ## Helper lemmas -/

theorem foldl_some_last (l : List String) (init : Option String) :
    l.foldl (fun _ m => some (pyLower m)) init =
      if l.isEmpty then init else l.getLast?.map pyLower := by
  induction l generalizing init with
  | nil => rfl
  | cons a t ih =>
    simp only [List.foldl_cons, ih]
    cases t with
    | nil => simp
    | cons b m => simp [List.getLast?_cons_cons]

theorem lastLoweredText_eq (texts : List String) :
    lastLoweredText texts = texts.getLast?.map pyLower := by
  unfold lastLoweredText
  rw [foldl_some_last]
  cases texts <;> simp

theorem sumCounts_classifyChain_zero (t : String) :
    sumCounts (classifyChain t ⟨0, 0, 0⟩) ≤ 1 := by
  unfold classifyChain
  split <;> [skip; split] <;> [simp [sumCounts]; simp [sumCounts]; split] <;>
    simp [sumCounts]

theorem sum_extract_le_one (o : Option (List String)) :
    sumCounts (extract_work_types o) ≤ 1 := by
  cases o with
  | none => simp [extract_work_types, sumCounts]
  | some texts =>
    have e : extract_work_types (some texts) =
        match lastLoweredText texts with
        | none => ⟨0, 0, 0⟩
        | some t => classifyChain t ⟨0, 0, 0⟩ := rfl
    rw [e]
    cases lastLoweredText texts with
    | none => simp [sumCounts]
    | some t => exact sumCounts_classifyChain_zero t

theorem scrape_some_elim {k l : String} {b : Browser} {d : JobData}
    (h : scrape_linkedin_jobs k l b = some d) :
    d = { total_jobs := extract_total_jobs b.page.totalJobsElem
          salary_range := DATA_NOT_AVAILABLE
          work_types := extract_work_types b.page.metadataTexts
          companies := extract_companies b.page.subtitleTexts
          search_url := generate_linkedin_url k l } := by
  unfold scrape_linkedin_jobs at h
  split at h
  · exact absurd h (by simp)
  · split at h
    · exact absurd h (by simp)
    · exact (Option.some.inj h).symm

theorem scrape_isSome {k l : String} {b : Browser}
    (hs : b.setupOk = true) (hl : b.page.loads = true) (hr : b.page.ready = true) :
    (scrape_linkedin_jobs k l b).isSome = true := by
  simp [scrape_linkedin_jobs, hs, hl, hr]

/-! ## Helper lemmas for the URL encoder -/

theorem char_toNat_lt (c : Char) : c.toNat < 1114112 := by
  have h := c.valid
  rcases h with h | ⟨h1, h2⟩
  · exact Nat.lt_trans h (by omega)
  · exact h2

theorem strData_append (a b : String) : (a ++ b).data = a.data ++ b.data := rfl

theorem hexVal_hexDigit {n : Nat} (h : n < 16) : hexVal (hexDigit n) = n := by
  interval_cases n <;> rfl

theorem decodePlusBytes_plus (rest : List Char) :
    decodePlusBytes ('+' :: rest) = 32 :: decodePlusBytes rest := by
  rw [decodePlusBytes.eq_def]; rfl

theorem decodePlusBytes_percent (a b : Char) (rest : List Char) :
    decodePlusBytes ('%' :: a :: b :: rest) =
      (16 * hexVal a + hexVal b) :: decodePlusBytes rest := by
  rw [decodePlusBytes.eq_def]; rfl

theorem decodePlusBytes_other (c : Char) (rest : List Char)
    (h1 : c ≠ '+') (h2 : c ≠ '%') :
    decodePlusBytes (c :: rest) = c.toNat :: decodePlusBytes rest := by
  rw [decodePlusBytes.eq_def]
  simp [h1, h2]

theorem utf8Bytes_lt_256 (c : Char) : ∀ b ∈ utf8Bytes c, b < 256 := by
  have hv := char_toNat_lt c
  intro b hb
  by_cases h1 : c.toNat < 128
  · simp [utf8Bytes, h1] at hb; omega
  · by_cases h2 : c.toNat < 2048
    · simp [utf8Bytes, h1, h2] at hb
      rcases hb with h | h <;> omega
    · by_cases h3 : c.toNat < 65536
      · simp [utf8Bytes, h1, h2, h3] at hb
        rcases hb with h | h | h <;> omega
      · simp [utf8Bytes, h1, h2, h3] at hb
        rcases hb with h | h | h | h <;> omega

theorem decode_escaped (bs : List Nat) (h : ∀ b ∈ bs, b < 256) (rest : List Char) :
    decodePlusBytes
        (bs.flatMap (fun b => ['%', hexDigit (b / 16), hexDigit (b % 16)]) ++ rest) =
      bs ++ decodePlusBytes rest := by
  induction bs with
  | nil => simp
  | cons b t ih =>
    have hblt : b < 256 := h b (by simp)
    simp only [List.flatMap_cons, List.cons_append, List.append_assoc, List.nil_append]
    rw [decodePlusBytes_percent, hexVal_hexDigit (by omega), hexVal_hexDigit (by omega),
      ih (fun x hx => h x (List.mem_cons_of_mem _ hx))]
    have e : 16 * (b / 16) + b % 16 = b := by omega
    rw [e]

theorem isSafeChar_facts {c : Char} (h : isSafeChar c = true) :
    c.toNat < 128 ∧ c ≠ '+' ∧ c ≠ '%' := by
  unfold isSafeChar at h
  simp only [Bool.or_eq_true, Bool.and_eq_true, decide_eq_true_eq] at h
  have hv : c.toNat < 128 ∧ c.toNat ≠ 43 ∧ c.toNat ≠ 37 := by
    rcases h with ((((((⟨a, b⟩ | ⟨a, b⟩) | ⟨a, b⟩) | e) | e) | e) | e)
    · omega
    · omega
    · omega
    all_goals subst e
    all_goals decide
  exact ⟨hv.1, fun e => hv.2.1 (by subst e; decide), fun e => hv.2.2 (by subst e; decide)⟩

theorem quotePlusChar_escaped {c : Char} (h1 : isSafeChar c = false) (h2 : c ≠ ' ') :
    quotePlusChar c =
      (utf8Bytes c).flatMap (fun b => ['%', hexDigit (b / 16), hexDigit (b % 16)]) := by
  simp [quotePlusChar, h1, h2]

theorem decode_quotePlusChar (c : Char) (rest : List Char) :
    decodePlusBytes (quotePlusChar c ++ rest) = utf8Bytes c ++ decodePlusBytes rest := by
  by_cases hsafe : isSafeChar c = true
  · obtain ⟨hlt, hp, hpc⟩ := isSafeChar_facts hsafe
    rw [show quotePlusChar c = [c] from by simp [quotePlusChar, hsafe]]
    rw [List.cons_append, List.nil_append, decodePlusBytes_other c rest hp hpc]
    simp [utf8Bytes, hlt]
  · rw [Bool.not_eq_true] at hsafe
    by_cases hsp : c = ' '
    · subst hsp
      rw [show quotePlusChar ' ' = ['+'] from rfl]
      rw [List.cons_append, List.nil_append, decodePlusBytes_plus]
      rfl
    · rw [quotePlusChar_escaped hsafe hsp]
      exact decode_escaped _ (utf8Bytes_lt_256 c) rest

theorem decode_quote_plus_data (cs : List Char) :
    decodePlusBytes (cs.flatMap quotePlusChar) = cs.flatMap utf8Bytes := by
  induction cs with
  | nil => rfl
  | cons c t ih =>
    simp only [List.flatMap_cons]
    rw [decode_quotePlusChar, ih]

theorem utf8Decode_one {b : Nat} (bs : List Nat) (h : b < 128) :
    utf8Decode (b :: bs) = Char.ofNat b :: utf8Decode bs := by
  rw [utf8Decode.eq_def]
  simp [h]

theorem utf8Decode_two {b : Nat} (b1 : Nat) (bs : List Nat)
    (h1 : ¬ b < 128) (h2 : b < 224) :
    utf8Decode (b :: b1 :: bs) =
      Char.ofNat ((b - 192) * 64 + (b1 - 128)) :: utf8Decode bs := by
  rw [utf8Decode.eq_def]
  simp [h1, h2]

theorem utf8Decode_three {b : Nat} (b1 b2 : Nat) (bs : List Nat)
    (h1 : ¬ b < 128) (h2 : ¬ b < 224) (h3 : b < 240) :
    utf8Decode (b :: b1 :: b2 :: bs) =
      Char.ofNat (((b - 224) * 64 + (b1 - 128)) * 64 + (b2 - 128)) :: utf8Decode bs := by
  rw [utf8Decode.eq_def]
  simp [h1, h2, h3]

theorem utf8Decode_four {b : Nat} (b1 b2 b3 : Nat) (bs : List Nat)
    (h1 : ¬ b < 128) (h2 : ¬ b < 224) (h3 : ¬ b < 240) :
    utf8Decode (b :: b1 :: b2 :: b3 :: bs) =
      Char.ofNat ((((b - 240) * 64 + (b1 - 128)) * 64 + (b2 - 128)) * 64 + (b3 - 128))
        :: utf8Decode bs := by
  rw [utf8Decode.eq_def]
  simp [h1, h2, h3]

theorem utf8Decode_utf8Bytes (c : Char) (bs : List Nat) :
    utf8Decode (utf8Bytes c ++ bs) = c :: utf8Decode bs := by
  have hv := char_toNat_lt c
  by_cases h1 : c.toNat < 128
  · rw [show utf8Bytes c = [c.toNat] from by simp [utf8Bytes, h1]]
    rw [List.cons_append, List.nil_append, utf8Decode_one bs h1, Char.ofNat_toNat]
  · by_cases h2 : c.toNat < 2048
    · rw [show utf8Bytes c = [192 + c.toNat / 64, 128 + c.toNat % 64] from by
        simp [utf8Bytes, h1, h2]]
      simp only [List.cons_append, List.nil_append]
      rw [utf8Decode_two _ bs (by omega) (by omega)]
      have e : (192 + c.toNat / 64 - 192) * 64 + (128 + c.toNat % 64 - 128) = c.toNat := by
        omega
      rw [e, Char.ofNat_toNat]
    · by_cases h3 : c.toNat < 65536
      · rw [show utf8Bytes c =
            [224 + c.toNat / 4096, 128 + c.toNat / 64 % 64, 128 + c.toNat % 64] from by
          simp [utf8Bytes, h1, h2, h3]]
        simp only [List.cons_append, List.nil_append]
        rw [utf8Decode_three _ _ bs (by omega) (by omega) (by omega)]
        have e : ((224 + c.toNat / 4096 - 224) * 64 + (128 + c.toNat / 64 % 64 - 128)) * 64 +
            (128 + c.toNat % 64 - 128) = c.toNat := by omega
        rw [e, Char.ofNat_toNat]
      · rw [show utf8Bytes c =
            [240 + c.toNat / 262144, 128 + c.toNat / 4096 % 64,
             128 + c.toNat / 64 % 64, 128 + c.toNat % 64] from by
          simp [utf8Bytes, h1, h2, h3]]
        simp only [List.cons_append, List.nil_append]
        rw [utf8Decode_four _ _ _ bs (by omega) (by omega) (by omega)]
        have e : (((240 + c.toNat / 262144 - 240) * 64 +
            (128 + c.toNat / 4096 % 64 - 128)) * 64 +
            (128 + c.toNat / 64 % 64 - 128)) * 64 + (128 + c.toNat % 64 - 128) = c.toNat := by
          omega
        rw [e, Char.ofNat_toNat]

theorem utf8Decode_flatMap (cs : List Char) :
    utf8Decode (cs.flatMap utf8Bytes) = cs := by
  induction cs with
  | nil => rfl
  | cons c t ih =>
    simp only [List.flatMap_cons]
    rw [utf8Decode_utf8Bytes, ih]

theorem quote_plus_roundtrip (s : String) : decodePlus (quote_plus s) = s := by
  show (⟨utf8Decode (decodePlusBytes (s.data.flatMap quotePlusChar))⟩ : String) = s
  rw [decode_quote_plus_data, utf8Decode_flatMap]

/-! ## Claims -/

/-- Claim C1: for every non-empty list of metadata element texts the
loop only rebinds the text variable, so the if/elif chain runs exactly
once, on the lowered text of the last element; the result depends only
on the last element (any list with the same last element yields the
same tally), and at most one count is incremented, by exactly 1, so
the counts sum to at most 1. -/
theorem work_types_classify_last_element_only (texts : List String) (h : texts ≠ []) :
    ∃ last, texts.getLast? = some last ∧
      extract_work_types (some texts) = classifyChain (pyLower last) ⟨0, 0, 0⟩ ∧
      (∀ texts' : List String, texts'.getLast? = texts.getLast? →
        extract_work_types (some texts') = extract_work_types (some texts)) ∧
      sumCounts (extract_work_types (some texts)) ≤ 1 := by
  have hsome : texts.getLast?.isSome = true := by
    rw [List.getLast?_isSome]
    exact h
  obtain ⟨last, hlast⟩ := Option.isSome_iff_exists.mp hsome
  refine ⟨last, hlast, ?_, ?_, sum_extract_le_one _⟩
  · simp [extract_work_types, lastLoweredText_eq, hlast]
  · intro texts' he
    simp [extract_work_types, lastLoweredText_eq, he, hlast]

theorem work_types_classify_last_element_only_witness :
    (["On-site role", "Hybrid role"] : List String) ≠ [] ∧
    (∃ last, (["On-site role", "Hybrid role"] : List String).getLast? = some last ∧
      extract_work_types (some ["On-site role", "Hybrid role"]) =
        classifyChain (pyLower last) ⟨0, 0, 0⟩ ∧
      (∀ texts' : List String,
        texts'.getLast? = (["On-site role", "Hybrid role"] : List String).getLast? →
        extract_work_types (some texts') =
          extract_work_types (some ["On-site role", "Hybrid role"])) ∧
      sumCounts (extract_work_types (some ["On-site role", "Hybrid role"])) ≤ 1) :=
  ⟨by decide, work_types_classify_last_element_only ["On-site role", "Hybrid role"] (by decide)⟩

/-- Claim C2: for non-empty keyword and location strings the URL is
the fixed base followed by the urlencoded query in insertion order;
percent-decoding the encoded keyword and location values recovers the
originals exactly; the query always carries the fixed pagination
parameters position=1 and pageNum=0; and for keyword Python Developer
and location India the URL contains the substring
keywords=Python+Developer&location=India.  The builder is a total Lean
function, hence pure and deterministic with no failure mode. -/
theorem url_builder_roundtrip (keyword location : String)
    (_hk : keyword ≠ "") (_hl : location ≠ "") :
    generate_linkedin_url keyword location =
      "https://www.linkedin.com/jobs/search/" ++ "?" ++
        ("keywords" ++ "=" ++ quote_plus keyword ++ "&" ++
          ("location" ++ "=" ++ quote_plus location ++ "&" ++ "position=1&pageNum=0")) ∧
    decodePlus (quote_plus keyword) = keyword ∧
    decodePlus (quote_plus location) = location ∧
    containsSub (generate_linkedin_url keyword location) "position=1" = true ∧
    containsSub (generate_linkedin_url keyword location) "pageNum=0" = true ∧
    containsSub (generate_linkedin_url "Python Developer" "India")
      "keywords=Python+Developer&location=India" = true := by
  have hurl : generate_linkedin_url keyword location =
      "https://www.linkedin.com/jobs/search/" ++ "?" ++
        ("keywords" ++ "=" ++ quote_plus keyword ++ "&" ++
          ("location" ++ "=" ++ quote_plus location ++ "&" ++ "position=1&pageNum=0")) := rfl
  have hinfix : ("position=1&pageNum=0").data <:+:
      (generate_linkedin_url keyword location).data := by
    refine ⟨("https://www.linkedin.com/jobs/search/" ++ "?" ++
      ("keywords" ++ "=" ++ quote_plus keyword ++ "&" ++
        ("location" ++ "=" ++ quote_plus location ++ "&"))).data, [], ?_⟩
    rw [hurl]
    simp [strData_append, List.append_assoc]
  refine ⟨hurl, quote_plus_roundtrip keyword, quote_plus_roundtrip location, ?_, ?_, by decide⟩
  · rw [containsSub, decide_eq_true_eq]
    exact List.IsInfix.trans (by decide) hinfix
  · rw [containsSub, decide_eq_true_eq]
    exact List.IsInfix.trans (by decide) hinfix

theorem url_builder_roundtrip_witness :
    ("Python Developer" : String) ≠ "" ∧ ("India" : String) ≠ "" ∧
    (generate_linkedin_url "Python Developer" "India" =
      "https://www.linkedin.com/jobs/search/" ++ "?" ++
        ("keywords" ++ "=" ++ quote_plus "Python Developer" ++ "&" ++
          ("location" ++ "=" ++ quote_plus "India" ++ "&" ++ "position=1&pageNum=0")) ∧
    decodePlus (quote_plus "Python Developer") = "Python Developer" ∧
    decodePlus (quote_plus "India") = "India" ∧
    containsSub (generate_linkedin_url "Python Developer" "India") "position=1" = true ∧
    containsSub (generate_linkedin_url "Python Developer" "India") "pageNum=0" = true ∧
    containsSub (generate_linkedin_url "Python Developer" "India")
      "keywords=Python+Developer&location=India" = true) :=
  ⟨by decide, by decide,
   url_builder_roundtrip "Python Developer" "India" (by decide) (by decide)⟩

/-- Claim C3: whenever the browser is set up and the page loads and
reaches ready state, a record is returned; a failed extraction leaves
its own field at its default (the sentinel, the zero counts, the empty
list), and each of the three fields depends only on its own element
lookup, so one extraction failing never changes the other two. -/
theorem per_field_extraction_independent (k l : String) (b b' : Browser)
    (hs : b.setupOk = true) (hl : b.page.loads = true) (hr : b.page.ready = true)
    (_hs' : b'.setupOk = true) (_hl' : b'.page.loads = true) (_hr' : b'.page.ready = true) :
    (scrape_linkedin_jobs k l b).isSome = true ∧
    (∀ d, scrape_linkedin_jobs k l b = some d →
      (b.page.totalJobsElem = none → d.total_jobs = DATA_NOT_AVAILABLE) ∧
      (b.page.metadataTexts = none → d.work_types = ⟨0, 0, 0⟩) ∧
      (b.page.subtitleTexts = none → d.companies = [])) ∧
    (∀ d d', scrape_linkedin_jobs k l b = some d →
      scrape_linkedin_jobs k l b' = some d' →
      (b.page.totalJobsElem = b'.page.totalJobsElem → d.total_jobs = d'.total_jobs) ∧
      (b.page.metadataTexts = b'.page.metadataTexts → d.work_types = d'.work_types) ∧
      (b.page.subtitleTexts = b'.page.subtitleTexts → d.companies = d'.companies)) := by
  refine ⟨scrape_isSome hs hl hr, ?_, ?_⟩
  · intro d hd
    obtain rfl := scrape_some_elim hd
    refine ⟨fun h => ?_, fun h => ?_, fun h => ?_⟩ <;>
      simp [h, extract_total_jobs, extract_work_types, extract_companies]
  · intro d d' hd hd'
    obtain rfl := scrape_some_elim hd
    obtain rfl := scrape_some_elim hd'
    exact ⟨fun h => by rw [h], fun h => by rw [h], fun h => by rw [h]⟩

theorem per_field_extraction_independent_witness :
    sampleBrowser.setupOk = true ∧ sampleBrowser.page.loads = true ∧
    sampleBrowser.page.ready = true ∧ failBrowser.setupOk = true ∧
    failBrowser.page.loads = true ∧ failBrowser.page.ready = true ∧
    ((scrape_linkedin_jobs "a" "b" sampleBrowser).isSome = true ∧
     (∀ d, scrape_linkedin_jobs "a" "b" sampleBrowser = some d →
       (sampleBrowser.page.totalJobsElem = none → d.total_jobs = DATA_NOT_AVAILABLE) ∧
       (sampleBrowser.page.metadataTexts = none → d.work_types = ⟨0, 0, 0⟩) ∧
       (sampleBrowser.page.subtitleTexts = none → d.companies = [])) ∧
     (∀ d d', scrape_linkedin_jobs "a" "b" sampleBrowser = some d →
       scrape_linkedin_jobs "a" "b" failBrowser = some d' →
       (sampleBrowser.page.totalJobsElem = failBrowser.page.totalJobsElem →
         d.total_jobs = d'.total_jobs) ∧
       (sampleBrowser.page.metadataTexts = failBrowser.page.metadataTexts →
         d.work_types = d'.work_types) ∧
       (sampleBrowser.page.subtitleTexts = failBrowser.page.subtitleTexts →
         d.companies = d'.companies))) :=
  ⟨rfl, rfl, rfl, rfl, rfl, rfl,
   per_field_extraction_independent "a" "b" sampleBrowser failBrowser
     rfl rfl rfl rfl rfl rfl⟩

/-- Claim C4: the companies list of every returned record has no
duplicates and at most 10 entries. -/
theorem companies_nodup_and_le_ten (k l : String) (b : Browser) (d : JobData)
    (h : scrape_linkedin_jobs k l b = some d) :
    d.companies.Nodup ∧ d.companies.length ≤ 10 := by
  obtain rfl := scrape_some_elim h
  constructor
  · cases hb : b.page.subtitleTexts with
    | none => simp [extract_companies]
    | some texts =>
      simp only [extract_companies]
      exact List.Nodup.sublist (List.take_sublist _ _) (List.nodup_dedup _)
  · cases hb : b.page.subtitleTexts with
    | none => simp [extract_companies]
    | some texts =>
      simp only [extract_companies]
      exact List.length_take_le _ _

theorem companies_nodup_and_le_ten_witness :
    scrape_linkedin_jobs "a" "b" sampleBrowser = some sampleRecord ∧
    (sampleRecord.companies.Nodup ∧ sampleRecord.companies.length ≤ 10) :=
  ⟨rfl, companies_nodup_and_le_ten "a" "b" sampleBrowser sampleRecord rfl⟩

/-- Claim C5: in every returned record the three work-type counts are
non-negative and their sum is at most the number of metadata elements
examined by the loop. -/
theorem work_type_counts_bounded_by_elements (k l : String) (b : Browser) (d : JobData)
    (h : scrape_linkedin_jobs k l b = some d) :
    0 ≤ d.work_types.Onsite ∧ 0 ≤ d.work_types.Remote ∧ 0 ≤ d.work_types.Hybrid ∧
    sumCounts d.work_types ≤ metadataCount b.page.metadataTexts := by
  obtain rfl := scrape_some_elim h
  refine ⟨Nat.zero_le _, Nat.zero_le _, Nat.zero_le _, ?_⟩
  cases hm : b.page.metadataTexts with
  | none => simp [extract_work_types, metadataCount, sumCounts]
  | some texts =>
    cases texts with
    | nil => simp [extract_work_types, lastLoweredText, metadataCount, sumCounts, List.foldl]
    | cons a t =>
      refine Nat.le_trans (sum_extract_le_one _) ?_
      simp [metadataCount]

theorem work_type_counts_bounded_by_elements_witness :
    scrape_linkedin_jobs "a" "b" sampleBrowser = some sampleRecord ∧
    (0 ≤ sampleRecord.work_types.Onsite ∧ 0 ≤ sampleRecord.work_types.Remote ∧
     0 ≤ sampleRecord.work_types.Hybrid ∧
     sumCounts sampleRecord.work_types ≤ metadataCount sampleBrowser.page.metadataTexts) :=
  ⟨rfl, work_type_counts_bounded_by_elements "a" "b" sampleBrowser sampleRecord rfl⟩

/-- Claim C6: with the browser up and the page ready, when the page
yields zero metadata elements the loop never assigns the text
variable, the membership test raises, the handler swallows the error,
and the returned work_types are exactly the initial zeros. -/
theorem zero_metadata_elements_zero_counts (k l : String) (b : Browser)
    (hs : b.setupOk = true) (hl : b.page.loads = true) (hr : b.page.ready = true)
    (hm : b.page.metadataTexts = some []) :
    (scrape_linkedin_jobs k l b).isSome = true ∧
    ∀ d, scrape_linkedin_jobs k l b = some d → d.work_types = ⟨0, 0, 0⟩ := by
  refine ⟨scrape_isSome hs hl hr, ?_⟩
  intro d hd
  obtain rfl := scrape_some_elim hd
  simp [hm, extract_work_types, lastLoweredText, List.foldl]

theorem zero_metadata_elements_zero_counts_witness :
    emptyPageBrowser.setupOk = true ∧ emptyPageBrowser.page.loads = true ∧
    emptyPageBrowser.page.ready = true ∧
    emptyPageBrowser.page.metadataTexts = some [] ∧
    ((scrape_linkedin_jobs "a" "b" emptyPageBrowser).isSome = true ∧
     ∀ d, scrape_linkedin_jobs "a" "b" emptyPageBrowser = some d →
       d.work_types = ⟨0, 0, 0⟩) :=
  ⟨rfl, rfl, rfl, rfl,
   zero_metadata_elements_zero_counts "a" "b" emptyPageBrowser rfl rfl rfl rfl⟩

/-- Claim C7: when the scraper yields no record — setup failure,
page-load failure, or the ready-state wait timing out — the presenter
shows only the error message and the main flow shows only the
retrieval error, rendering nothing else. -/
theorem no_record_renders_error_only (k l : String) (b : Browser)
    (h : b.setupOk = false ∨ b.page.loads = false ∨ b.page.ready = false) :
    scrape_linkedin_jobs k l b = none ∧
    display_results none k = [RenderItem.errorMsg "No data found."] ∧
    main_results k l b = [RenderItem.errorMsg "Could not retrieve data."] := by
  have hn : scrape_linkedin_jobs k l b = none := by
    rcases h with h | h | h <;> simp [scrape_linkedin_jobs, h]
  exact ⟨hn, rfl, by simp [main_results, hn]⟩

theorem no_record_renders_error_only_witness :
    (downBrowser.setupOk = false ∨ downBrowser.page.loads = false ∨
      downBrowser.page.ready = false) ∧
    (scrape_linkedin_jobs "a" "b" downBrowser = none ∧
     display_results none "a" = [RenderItem.errorMsg "No data found."] ∧
     main_results "a" "b" downBrowser =
       [RenderItem.errorMsg "Could not retrieve data."]) :=
  ⟨Or.inl rfl, no_record_renders_error_only "a" "b" downBrowser (Or.inl rfl)⟩

/-- Claim C8: zero subtitle elements give an empty companies list, and
for every record with an empty companies list the presenter renders
the no-company message and no bar chart, while still rendering the
metrics, the work-type pie chart, the link, and the narrative. -/
theorem empty_companies_message_instead_of_chart (k l : String) (b : Browser)
    (hs : b.setupOk = true) (hl : b.page.loads = true) (hr : b.page.ready = true)
    (hsub : b.page.subtitleTexts = some []) :
    (scrape_linkedin_jobs k l b).isSome = true ∧
    (∀ d, scrape_linkedin_jobs k l b = some d → d.companies = []) ∧
    (∀ d : JobData, d.companies = [] →
      RenderItem.writeText "No company data found." ∈ display_results (some d) k ∧
      (∀ cs, RenderItem.barChart cs ∉ display_results (some d) k) ∧
      RenderItem.metric "Total Jobs" d.total_jobs ∈ display_results (some d) k ∧
      RenderItem.pieChart d.work_types.Onsite d.work_types.Remote d.work_types.Hybrid ∈
        display_results (some d) k ∧
      RenderItem.linkMarkdown d.search_url ∈ display_results (some d) k ∧
      RenderItem.narrative k ∈ display_results (some d) k) := by
  refine ⟨scrape_isSome hs hl hr, ?_, ?_⟩
  · intro d hd
    obtain rfl := scrape_some_elim hd
    simp [hsub, extract_companies]
  · intro d hd
    refine ⟨?_, ?_, ?_, ?_, ?_, ?_⟩ <;> simp [display_results, hd]

theorem empty_companies_message_instead_of_chart_witness :
    emptyPageBrowser.setupOk = true ∧ emptyPageBrowser.page.loads = true ∧
    emptyPageBrowser.page.ready = true ∧
    emptyPageBrowser.page.subtitleTexts = some [] ∧
    ((scrape_linkedin_jobs "a" "b" emptyPageBrowser).isSome = true ∧
     (∀ d, scrape_linkedin_jobs "a" "b" emptyPageBrowser = some d →
       d.companies = []) ∧
     (∀ d : JobData, d.companies = [] →
       RenderItem.writeText "No company data found." ∈ display_results (some d) "a" ∧
       (∀ cs, RenderItem.barChart cs ∉ display_results (some d) "a") ∧
       RenderItem.metric "Total Jobs" d.total_jobs ∈ display_results (some d) "a" ∧
       RenderItem.pieChart d.work_types.Onsite d.work_types.Remote d.work_types.Hybrid ∈
         display_results (some d) "a" ∧
       RenderItem.linkMarkdown d.search_url ∈ display_results (some d) "a" ∧
       RenderItem.narrative "a" ∈ display_results (some d) "a")) :=
  ⟨rfl, rfl, rfl, rfl,
   empty_companies_message_instead_of_chart "a" "b" emptyPageBrowser rfl rfl rfl rfl⟩

/-- Claim C9: every record the scraper returns has the placeholder
sentinel as its salary_range; no code path writes that field after
initialization. -/
theorem salary_range_always_sentinel (k l : String) (b : Browser) (d : JobData)
    (h : scrape_linkedin_jobs k l b = some d) :
    d.salary_range = DATA_NOT_AVAILABLE := by
  obtain rfl := scrape_some_elim h
  rfl

theorem salary_range_always_sentinel_witness :
    scrape_linkedin_jobs "a" "b" sampleBrowser = some sampleRecord ∧
    sampleRecord.salary_range = DATA_NOT_AVAILABLE :=
  ⟨rfl, salary_range_always_sentinel "a" "b" sampleBrowser sampleRecord rfl⟩

/-- Claim C10: in every returned record the three work-type counts sum
to at most 1, since the misplaced if/elif chain runs at most once. -/
theorem sum_work_type_counts_le_one (k l : String) (b : Browser) (d : JobData)
    (h : scrape_linkedin_jobs k l b = some d) :
    sumCounts d.work_types ≤ 1 := by
  obtain rfl := scrape_some_elim h
  exact sum_extract_le_one _

theorem sum_work_type_counts_le_one_witness :
    scrape_linkedin_jobs "a" "b" sampleBrowser = some sampleRecord ∧
    sumCounts sampleRecord.work_types ≤ 1 :=
  ⟨rfl, sum_work_type_counts_le_one "a" "b" sampleBrowser sampleRecord rfl⟩

end JobInsights
